import Mathlib

/-!
Verification development for the Yadam webtoon generator.

The repository is a small React application (`src/App.tsx`) driving two
provider calls (`src/services/geminiService.ts`): script analysis into
scenes, and per-scene image rendering.  The development below is a shallow
embedding of the orchestration logic:

* provider responses are parameters (the network is external), but every
  piece of decision logic the source applies to a response is embedded
  faithfully (`analyzeScript`, `generateImage`, `getPromptFix`);
* the stateful React handlers are embedded as pure functions: `handleGenerate`
  is modelled as the list of state-mutation / provider-call events it performs
  in order, and `handleRetry` as a transition on an explicit application state;
* JavaScript truthiness checks (empty string is falsy) are made explicit.
-/

/-- Mirror of the `status: 'success' | 'failed'` field of `GeneratedImage`
in `src/types.ts`. -/
inductive Status where
  | success
  | failed
deriving DecidableEq, Repr

/-- Mirror of the `GeneratedImage` interface in `src/types.ts`.
`timestamp` is a `Nat` (milliseconds); optional fields are `Option`. -/
structure GeneratedImage where
  id : String
  originalInput : String
  refinedPrompt : String
  suggestedPrompt : Option String := none
  sceneSummary : Option String := none
  imageUrl : String
  timestamp : Nat
  aspectRatio : String
  batchId : Option String := none
  status : Status
deriving DecidableEq, Repr

/-- Mirror of `LoadingStatus` in `src/types.ts`. -/
inductive LoadingStatus where
  | idle
  | analyzing
  | generating
  | error
  | success
deriving DecidableEq, Repr

/-- Mirror of `LoadingState` in `src/types.ts`. -/
structure LoadingState where
  status : LoadingStatus
  current : Option Nat := none
  total : Option Nat := none
  message : Option String := none
deriving DecidableEq, Repr

/-- Mirror of the `SceneBlueprint` interface in
`src/services/geminiService.ts`. -/
structure SceneBlueprint where
  scene_number : Int
  korean_summary : String
  english_prompt : String
deriving DecidableEq, Repr

/-- Mirror of `part.inlineData` of a provider image response
(`src/services/geminiService.ts`, `generateImage`). -/
structure InlineData where
  data : String
  mimeType : Option String := none
deriving DecidableEq, Repr

/-- One element of `response.candidates[0].content.parts`. -/
structure ResponsePart where
  inlineData : Option InlineData := none
deriving DecidableEq, Repr

/-- The `MASTER_STYLE_PROMPT` constant of `src/constants.ts`. -/
def MASTER_STYLE_PROMPT : String :=
  "A flat 2D vector illustration in the style of a Korean educational webtoon. Set in the Joseon Dynasty. Cute characters with simple features and expressive faces. Thick clean black outlines, cel-shaded coloring, flat colors, no 3D effects, no realistic textures."

/-- The string actually sent to the image provider:
`${MASTER_STYLE_PROMPT} ${sceneDescription}` in `generateImage`. -/
def fullPrompt (sceneDescription : String) : String :=
  MASTER_STYLE_PROMPT ++ " " ++ sceneDescription

/-- The extraction loop of `generateImage`: starting from `imageUrl = ""`,
walk the parts, and on the first part with `inlineData` set
`imageUrl = data:mime;base64,data` and break (`mimeType` defaults to
`"image/png"`). -/
def partsToImageUrl : List ResponsePart → String
  | [] => ""
  | p :: rest =>
    match p.inlineData with
    | some d => "data:" ++ d.mimeType.getD "image/png" ++ ";base64," ++ d.data
    | none => partsToImageUrl rest

/-- Embedding of `generateImage` in `src/services/geminiService.ts`.
The provider response is the parameter `resp`: `none` stands for a thrown
provider error or a response with no `candidates[0].content.parts` (both
end in the outer `catch`, which rethrows the generic message).  If the
extracted `imageUrl` is empty the function throws; the outer catch converts
every thrown error into the single generic message, so both failure paths
return the same error.  The scene description and aspect ratio are carried
for faithfulness to the call signature; the rendered payload comes from the
external response. -/
def generateImage (sceneDescription : String) (aspectRatio : String)
    (resp : Option (List ResponsePart)) : Except String String :=
  match sceneDescription, aspectRatio, resp with
  | _, _, none => Except.error "이미지 생성 중 오류가 발생했습니다."
  | _, _, some parts =>
    let imageUrl := partsToImageUrl parts
    if imageUrl = "" then Except.error "이미지 생성 중 오류가 발생했습니다."
    else Except.ok imageUrl

/-- Executable model of JavaScript's `String.prototype.trim` as the source
uses it (`inputText.trim()`, `response.text?.trim()`): drop whitespace from
both ends of the string. -/
def jsTrim (s : String) : String :=
  String.mk (((s.data.dropWhile Char.isWhitespace).reverse.dropWhile
    Char.isWhitespace).reverse)

/-- Embedding of `getPromptFix` in `src/services/geminiService.ts`:
`response.text?.trim() || originalPrompt`, with every provider error caught
and converted into `originalPrompt`.  `respText = none` stands both for a
thrown provider call and for an absent `text` field; a whitespace-only text
trims to `""`, which is falsy in JavaScript, so the original prompt is
returned.  The function is total: it never throws. -/
def getPromptFix (originalPrompt : String) (respText : Option String) : String :=
  match respText with
  | some t => if jsTrim t = "" then originalPrompt else jsTrim t
  | none => originalPrompt

/-- Outcome of the analysis provider call plus JSON parsing, as the
control flow of `analyzeScript` distinguishes them.  `thrown`: the provider
call threw; `noText`: `response.text` was absent or empty (falsy);
`unparsable`: `JSON.parse` of the cleaned text threw; `parsedArray` /
`parsedObject`: the parsed JSON was an array / a single object;
`parsedOther`: the parsed JSON was neither (number, string, `null`...).
The string-level cleaning (`cleanJson`) and JSON decoding themselves are
external input preparation and are abstracted by this outcome type. -/
inductive AnalysisResponse where
  | thrown
  | noText
  | unparsable
  | parsedArray (scenes : List SceneBlueprint)
  | parsedObject (scene : SceneBlueprint)
  | parsedOther
deriving DecidableEq, Repr

/-- The degenerate fallback scene built in the `catch` of `analyzeScript`. -/
def fallbackScene (userInput : String) : SceneBlueprint :=
  { scene_number := 1, korean_summary := "단일 장면", english_prompt := userInput }

/-- Embedding of `analyzeScript` in `src/services/geminiService.ts`.
A parsed array is returned as is (including the empty array); a parsed
single object is wrapped into a one-element list; every other outcome
reaches the `throw` inside the `try` (or was already thrown) and is caught,
yielding the single degenerate fallback scene. -/
def analyzeScript (userInput : String) : AnalysisResponse → List SceneBlueprint
  | AnalysisResponse.parsedArray scenes => scenes
  | AnalysisResponse.parsedObject scene => [scene]
  | _ => [fallbackScene userInput]

/-- External inputs consumed while generating one scene: the image
provider's response for this scene's render call, and the text returned by
the prompt-fix provider call (used only when the render failed). -/
structure SceneEnv where
  renderResponse : Option (List ResponsePart) := none
  fixResponse : Option String := none

/-- Record id construction in `handleGenerate`: `` `${batchId}_${i}` `` with
the zero-based loop index `i` (scene `i+1` of the batch). -/
def sceneId (batchId : String) (i : Nat) : String :=
  batchId ++ "_" ++ toString i

/-- The `GeneratedImage` record built inline in `handleGenerate`'s loop for
scene index `i`: on render success the `newImage` literal (no suggestion,
status success); on failure the `failedImage` literal (empty `imageUrl`,
status failed, and `suggestedPrompt` only when the fix is truthy and
differs from the scene prompt — `src/App.tsx` line 124). -/
def batchRecord (input batchId ratio : String) (env : Nat → SceneEnv)
    (nowAt : Nat → Nat) (i : Nat) (scene : SceneBlueprint) : GeneratedImage :=
  match generateImage scene.english_prompt ratio (env i).renderResponse with
  | Except.ok url =>
    { id := sceneId batchId i
      batchId := some batchId
      originalInput := input
      refinedPrompt := scene.english_prompt
      suggestedPrompt := none
      sceneSummary := some scene.korean_summary
      imageUrl := url
      timestamp := nowAt i
      aspectRatio := ratio
      status := Status.success }
  | Except.error _ =>
    let sp := getPromptFix scene.english_prompt (env i).fixResponse
    { id := sceneId batchId i
      batchId := some batchId
      originalInput := input
      refinedPrompt := scene.english_prompt
      suggestedPrompt := if sp ≠ "" ∧ sp ≠ scene.english_prompt then some sp else none
      sceneSummary := some scene.korean_summary
      imageUrl := ""
      timestamp := nowAt i
      aspectRatio := ratio
      status := Status.failed }

/-- The records produced by the generation loop for the given scenes,
starting at loop index `i`. -/
def batchRecords (input batchId ratio : String) (env : Nat → SceneEnv)
    (nowAt : Nat → Nat) : List SceneBlueprint → Nat → List GeneratedImage
  | [], _ => []
  | scene :: rest, i =>
    batchRecord input batchId ratio env nowAt i scene ::
      batchRecords input batchId ratio env nowAt rest (i + 1)

/-- One observable step of `handleGenerate`: a React state mutation
(`setLoadingState`, `setErrorMsg`, `setCurrentBatch`, prepend to history)
or a provider call (analysis, render, prompt fix, the pacing delay). -/
inductive AppEvent where
  | setLoading (l : LoadingState)
  | setErrorMsg (m : Option String)
  | analyzeCall (input : String)
  | delay (ms : Nat)
  | renderCall (sceneDescription : String) (ratio : String)
  | fixCall (originalPrompt : String)
  | setBatch (b : List GeneratedImage)
  | pushHistory (g : GeneratedImage)
deriving DecidableEq, Repr

/-- The scene loop of `handleGenerate` (`src/App.tsx` lines 73–135), as the
list of events it performs: for each scene, the 3000 ms pacing delay when
`i > 0`, the progress update, the render call, then either
`setCurrentBatch`+`setHistory` (success) or the fix call and
`setCurrentBatch` alone (failure), continuing with the next scene either
way; after the last scene, the terminal `setLoadingState({status:'success'})`. -/
def generateLoop (input batchId ratio : String) (env : Nat → SceneEnv)
    (nowAt : Nat → Nat) (total : Nat) :
    List SceneBlueprint → Nat → List GeneratedImage → List AppEvent
  | [], _, _ => [AppEvent.setLoading { status := LoadingStatus.success }]
  | scene :: rest, i, temp =>
    (if 0 < i then [AppEvent.delay 3000] else [])
    ++ [AppEvent.setLoading
          { status := LoadingStatus.generating
            current := some (i + 1)
            total := some total
            message := some ("장면 " ++ toString (i + 1) ++ " / " ++ toString total
              ++ " 그리는 중... (" ++ scene.korean_summary ++ ")") },
        AppEvent.renderCall scene.english_prompt ratio]
    ++ (match generateImage scene.english_prompt ratio (env i).renderResponse with
        | Except.ok _ =>
          [AppEvent.setBatch (temp ++ [batchRecord input batchId ratio env nowAt i scene]),
           AppEvent.pushHistory (batchRecord input batchId ratio env nowAt i scene)]
        | Except.error _ =>
          [AppEvent.fixCall scene.english_prompt,
           AppEvent.setBatch (temp ++ [batchRecord input batchId ratio env nowAt i scene])])
    ++ generateLoop input batchId ratio env nowAt total rest (i + 1)
         (temp ++ [batchRecord input batchId ratio env nowAt i scene])

/-- Embedding of `handleGenerate` (`src/App.tsx` lines 46–144) as its event
trace.  A blank (after `trim`) input is a no-op.  Otherwise: progress
`analyzing`, clear the error banner, run the analysis (`analyzeCall` marks
the await), then the `generating` progress with `current 0`, then — and only
then — clear the previous batch (`setCurrentBatch([])`, the comment at
lines 52–53 of the source), then the scene loop.  The outer `catch` is
unreachable in this model: the embedded `analyzeScript` absorbs its own
failures and every render/fix failure is caught inside the loop. -/
def handleGenerate (input batchId ratio : String) (aresp : AnalysisResponse)
    (env : Nat → SceneEnv) (nowAt : Nat → Nat) : List AppEvent :=
  if jsTrim input = "" then []
  else
    let scenes := analyzeScript input aresp
    [AppEvent.setLoading
        { status := LoadingStatus.analyzing
          message := some "이야기를 분석하고 장면을 나누고 있습니다..." },
     AppEvent.setErrorMsg none,
     AppEvent.analyzeCall input,
     AppEvent.setLoading
        { status := LoadingStatus.generating
          current := some 0
          total := some scenes.length
          message := some ("총 " ++ toString scenes.length
            ++ "개의 장면을 생성할 준비가 되었습니다.") },
     AppEvent.setBatch []]
    ++ generateLoop input batchId ratio env nowAt scenes.length scenes 0 []

/-- Extract the scene prompt of a render-call event. -/
def renderCallPrompt : AppEvent → Option String
  | AppEvent.renderCall p _ => some p
  | _ => none

/-- Extract the payload of a `setCurrentBatch` event. -/
def setBatchPayload : AppEvent → Option (List GeneratedImage)
  | AppEvent.setBatch b => some b
  | _ => none

/-- Extract the record of a history-prepend event. -/
def pushHistoryPayload : AppEvent → Option GeneratedImage
  | AppEvent.pushHistory g => some g
  | _ => none

/-- Is the event a `setCurrentBatch` call? -/
def isSetBatch : AppEvent → Bool
  | AppEvent.setBatch _ => true
  | _ => false

/-- Is the event a render call? -/
def isRenderCall : AppEvent → Bool
  | AppEvent.renderCall _ _ => true
  | _ => false

/-- The value of `currentBatch` after replaying the events over `acc`
(the last `setBatch` payload, if any). -/
def finalBatchAux : List AppEvent → Option (List GeneratedImage) →
    Option (List GeneratedImage)
  | [], acc => acc
  | AppEvent.setBatch b :: rest, _ => finalBatchAux rest (some b)
  | _ :: rest, acc => finalBatchAux rest acc

/-- The value of `currentBatch` at the end of an event trace. -/
def finalBatch (evs : List AppEvent) : Option (List GeneratedImage) :=
  finalBatchAux evs none

/-- The mutable application state touched by `handleRetry`
(`src/App.tsx`): the live batch view, the persisted history, the per-id
in-flight retry set, and the error banner. -/
structure AppState where
  currentBatch : List GeneratedImage
  history : List GeneratedImage
  retryingIds : List String
  errorMsg : Option String := none
deriving DecidableEq, Repr

/-- Prompt selection of `handleRetry`:
`useSuggestion && item.suggestedPrompt ? item.suggestedPrompt :
item.refinedPrompt`.  An empty suggested prompt is falsy in JavaScript and
also falls back to `refinedPrompt`. -/
def retryPrompt (item : GeneratedImage) (useSuggestion : Bool) : String :=
  match useSuggestion, item.suggestedPrompt with
  | true, some s => if s = "" then item.refinedPrompt else s
  | _, _ => item.refinedPrompt

/-- The `successItem` literal of `handleRetry` (`src/App.tsx` lines
159–165): spread of `item` with the fresh image, the prompt actually used,
status success and a refreshed timestamp.  All other fields — including
`suggestedPrompt` — are kept from `item`. -/
def retrySuccessItem (item : GeneratedImage) (url usedPrompt : String)
    (now : Nat) : GeneratedImage :=
  { item with
      imageUrl := url
      refinedPrompt := usedPrompt
      status := Status.success
      timestamp := now }

/-- Embedding of `handleRetry` (`src/App.tsx` lines 146–186) as a state
transition.  The returned `Bool` records whether a render call was issued.
If `item.id` is already in flight, the call returns immediately (no render,
no state change).  Otherwise the id is added to the in-flight set, the
render is attempted; on success the live batch is mapped in place and the
success item is prepended to history; on failure only the error banner is
set; the `finally` block removes the id from the in-flight set in both
cases. -/
def handleRetry (s : AppState) (item : GeneratedImage) (useSuggestion : Bool)
    (renderResponse : Option (List ResponsePart)) (now : Nat) :
    AppState × Bool :=
  if s.retryingIds.contains item.id then (s, false)
  else
    let ids1 := item.id :: s.retryingIds
    let p := retryPrompt item useSuggestion
    match generateImage p item.aspectRatio renderResponse with
    | Except.ok url =>
      let si := retrySuccessItem item url p now
      ({ currentBatch := s.currentBatch.map fun g => if g.id = item.id then si else g
         history := si :: s.history
         retryingIds := ids1.erase item.id
         errorMsg := s.errorMsg }, true)
    | Except.error _ =>
      ({ s with
           errorMsg := some "재시도에 실패했습니다. 잠시 후 다시 시도해주세요."
           retryingIds := ids1.erase item.id }, true)

/-- Character-wise lexicographic comparison: `lexLe a b` is true when `a`
sorts no later than `b`.  This is the order the
`(a, b) => a.id.localeCompare(b.id)` comparator of
`handleSelectHistoryItem` induces on the ASCII record ids at hand (locale
collation and code-unit comparison agree on them). -/
def lexLe : List Char → List Char → Bool
  | [], _ => true
  | _ :: _, [] => false
  | c :: cs, d :: ds => if c = d then lexLe cs ds else decide (c < d)

/-- The `localeCompare` order lifted to records, comparing their ids. -/
def idLe (x y : GeneratedImage) : Prop :=
  lexLe x.id.data y.id.data = true

instance : DecidableRel idLe := fun x y => by
  unfold idLe
  infer_instance

instance : IsTotal GeneratedImage idLe := by
  constructor
  intro x y
  unfold idLe
  generalize x.id.data = a
  generalize y.id.data = b
  induction a generalizing b with
  | nil => left; rfl
  | cons c cs ih =>
    cases b with
    | nil => right; rfl
    | cons d ds =>
      by_cases hcd : c = d
      · subst hcd
        rcases ih ds with h | h
        · left; simpa [lexLe] using h
        · right; simpa [lexLe] using h
      · rcases lt_trichotomy c d with h | h | h
        · left; simp [lexLe, hcd, h]
        · exact absurd h hcd
        · right; simp [lexLe, Ne.symm hcd, h]

instance : IsTrans GeneratedImage idLe := by
  constructor
  intro x y z
  unfold idLe
  generalize x.id.data = a
  generalize y.id.data = b
  generalize z.id.data = c
  induction a generalizing b c with
  | nil => intro _ _; rfl
  | cons p ps ih =>
    intro h₁ h₂
    cases b with
    | nil => simp [lexLe] at h₁
    | cons q qs =>
      cases c with
      | nil => simp [lexLe] at h₂
      | cons r rs =>
        by_cases hpq : p = q
        · subst hpq
          simp only [lexLe, if_true, eq_self_iff_true] at h₁
          by_cases hqr : p = r
          · subst hqr
            simp only [lexLe, if_true, eq_self_iff_true] at h₂ ⊢
            exact ih _ _ h₁ h₂
          · simp only [lexLe, if_neg hqr] at h₂ ⊢
            exact h₂
        · simp only [lexLe, if_neg hpq, decide_eq_true_eq] at h₁
          by_cases hqr : q = r
          · subst hqr
            simp [lexLe, hpq, h₁]
          · simp only [lexLe, if_neg hqr, decide_eq_true_eq] at h₂
            have hpr : p < r := lt_trans h₁ h₂
            simp [lexLe, ne_of_lt hpr, hpr]

/-- Embedding of `handleSelectHistoryItem` (`src/App.tsx` lines 200–211),
returning the `currentBatch` it installs.  When the item carries a truthy
`batchId`, the history entries of that batch are collected (history is
newest-first, so `reverse` restores insertion order) and, when more than
one, sorted with the `localeCompare` comparator (JavaScript `Array.sort` is
stable, as is `List.insertionSort`); otherwise the view is just the item. -/
def handleSelectHistoryItem (history : List GeneratedImage)
    (item : GeneratedImage) : List GeneratedImage :=
  match item.batchId with
  | none => [item]
  | some b =>
    if b = "" then [item]
    else
      let siblings := (history.filter fun h => h.batchId == some b).reverse
      if 1 < siblings.length then List.insertionSort idLe siblings
      else [item]

/-- A minimal image-provider response carrying one inline-data part. -/
def okResp : Option (List ResponsePart) :=
  some [{ inlineData := some { data := "d" } }]

/-- Environment where every render succeeds with the one-part response. -/
def envOk : Nat → SceneEnv := fun _ => { renderResponse := okResp }

/-- Environment where every render fails (no response) and the fix provider
answers with the distinct prompt "q". -/
def envFail : Nat → SceneEnv := fun _ => { fixResponse := some "q" }

/-- Constant clock used in concrete runs. -/
def now0 : Nat → Nat := fun _ => 0

/-- History record with id `b_n` of batch `b`, as a successful generation
run stores it. -/
def exRec (n : Nat) : GeneratedImage :=
  { id := sceneId "b" n
    batchId := some "b"
    originalInput := "s"
    refinedPrompt := "p"
    imageUrl := "u"
    timestamp := 0
    aspectRatio := "16:9"
    status := Status.success }

/-- Eleven-scene batch history, newest first, the order `handleGenerate`
leaves it in after prepending each success. -/
def exHistory : List GeneratedImage := ((List.range 11).reverse).map exRec


/-- A previously stored success record with id `b_0`. -/
def exOld3 : GeneratedImage :=
  { id := "b_0"
    batchId := some "b"
    originalInput := "s"
    refinedPrompt := "p"
    imageUrl := "u"
    timestamp := 0
    aspectRatio := "16:9"
    status := Status.success }

/-- A failed record with the same id `b_0`, as shown in the live view. -/
def exItem3 : GeneratedImage :=
  { id := "b_0"
    batchId := some "b"
    originalInput := "s"
    refinedPrompt := "p"
    imageUrl := ""
    timestamp := 0
    aspectRatio := "16:9"
    status := Status.failed }

/-- State in which history already holds a record with id `b_0`. -/
def exState3 : AppState :=
  { currentBatch := [exItem3], history := [exOld3], retryingIds := [] }

/-- A failed record carrying the suggestion "b" for its prompt "a". -/
def exItem6 : GeneratedImage :=
  { id := "c_0"
    batchId := some "c"
    originalInput := "s"
    refinedPrompt := "a"
    suggestedPrompt := some "b"
    imageUrl := ""
    timestamp := 0
    aspectRatio := "16:9"
    status := Status.failed }

/-- State showing only the failed record `exItem6`. -/
def exState6 : AppState :=
  { currentBatch := [exItem6], history := [], retryingIds := [] }







/-- Statement of claim C1 over one run of `handleGenerate`: the render
calls are exactly the analyzed scenes' prompts, in list order (every scene
attempted exactly once, failures notwithstanding); the final live batch is
the per-scene record list; its ids are `batchId_0 .. batchId_(N-1)` in
order, i.e. the k-th emitted result is scene k of the batch; and the trace
ends in the terminal success phase. -/
def GenerateBatchSpec (input batchId ratio : String) (aresp : AnalysisResponse)
    (env : Nat → SceneEnv) (nowAt : Nat → Nat) : Prop :=
  (handleGenerate input batchId ratio aresp env nowAt).filterMap renderCallPrompt
      = (analyzeScript input aresp).map SceneBlueprint.english_prompt ∧
  finalBatch (handleGenerate input batchId ratio aresp env nowAt)
      = some (batchRecords input batchId ratio env nowAt (analyzeScript input aresp) 0) ∧
  (batchRecords input batchId ratio env nowAt (analyzeScript input aresp) 0).map
      GeneratedImage.id
      = (List.range (analyzeScript input aresp).length).map (sceneId batchId) ∧
  (handleGenerate input batchId ratio aresp env nowAt).getLast?
      = some (AppEvent.setLoading { status := LoadingStatus.success })

/-- Statement of claim C4: every record `handleGenerate` prepends to
history has status success; the prepended records are exactly the
successful ones among the per-scene records (K of N); the live view ends
with all N records; and a retry transition grows history only by success
records. -/
def HistorySuccessOnlySpec (input batchId ratio : String) (aresp : AnalysisResponse)
    (env : Nat → SceneEnv) (nowAt : Nat → Nat) : Prop :=
  (∀ g, AppEvent.pushHistory g ∈ handleGenerate input batchId ratio aresp env nowAt →
      g.status = Status.success) ∧
  (handleGenerate input batchId ratio aresp env nowAt).filterMap pushHistoryPayload
      = (batchRecords input batchId ratio env nowAt (analyzeScript input aresp) 0).filter
          (fun g => g.status == Status.success) ∧
  (batchRecords input batchId ratio env nowAt (analyzeScript input aresp) 0).length
      = (analyzeScript input aresp).length ∧
  finalBatch (handleGenerate input batchId ratio aresp env nowAt)
      = some (batchRecords input batchId ratio env nowAt (analyzeScript input aresp) 0) ∧
  (∀ s item u resp now,
      (handleRetry s item u resp now).1.history = s.history ∨
      ∃ si, (handleRetry s item u resp now).1.history = si :: s.history ∧
        si.status = Status.success)

/-- Statement of claim C5: in every batch view `handleGenerate` publishes,
a record carries a non-empty image payload exactly when its status is
success; and every record a retry adds to history is a success record with
a non-empty payload. -/
def ImageIffSuccessSpec (input batchId ratio : String) (aresp : AnalysisResponse)
    (env : Nat → SceneEnv) (nowAt : Nat → Nat) : Prop :=
  (∀ b, AppEvent.setBatch b ∈ handleGenerate input batchId ratio aresp env nowAt →
      ∀ g ∈ b, (g.status = Status.success ↔ g.imageUrl ≠ "")) ∧
  (∀ s item u resp now si,
      (handleRetry s item u resp now).1.history = si :: s.history →
      si.status = Status.success ∧ si.imageUrl ≠ "")

/-- Statement of claim C10: the trace of a non-blank run splits as
`pre ++ setBatch [] :: post` where `pre` holds the analysis call but no
batch mutation and no render call, and no later `setBatch` is empty — the
live view is untouched while analysis runs and is cleared exactly once,
after analysis and before the first render. -/
def ClearOnceSpec (input batchId ratio : String) (aresp : AnalysisResponse)
    (env : Nat → SceneEnv) (nowAt : Nat → Nat) : Prop :=
  ∃ pre post,
    handleGenerate input batchId ratio aresp env nowAt
        = pre ++ AppEvent.setBatch [] :: post ∧
    AppEvent.analyzeCall input ∈ pre ∧
    (∀ e ∈ pre, isSetBatch e = false ∧ isRenderCall e = false) ∧
    (∀ b, AppEvent.setBatch b ∈ post → b ≠ [])

/-- Statement of the amended claim C3, for a retry whose render succeeded
with payload `url` (`hok` in the theorem): the live batch is mapped in
place at `item.id`; the updated record keeps the id, carries the payload,
the prompt actually used and the fresh timestamp; the success item is
prepended to history; and — provided no history record already had this id
— history afterwards holds exactly one record with it. -/
def RetryInPlaceSpec (s : AppState) (item : GeneratedImage) (u : Bool)
    (resp : Option (List ResponsePart)) (now : Nat) (url : String) : Prop :=
  (handleRetry s item u resp now).1.currentBatch
      = s.currentBatch.map (fun g =>
          if g.id = item.id then retrySuccessItem item url (retryPrompt item u) now
          else g) ∧
  (handleRetry s item u resp now).1.history
      = retrySuccessItem item url (retryPrompt item u) now :: s.history ∧
  (retrySuccessItem item url (retryPrompt item u) now).id = item.id ∧
  (retrySuccessItem item url (retryPrompt item u) now).status = Status.success ∧
  (retrySuccessItem item url (retryPrompt item u) now).imageUrl = url ∧
  (retrySuccessItem item url (retryPrompt item u) now).refinedPrompt
      = retryPrompt item u ∧
  (retrySuccessItem item url (retryPrompt item u) now).timestamp = now ∧
  ((handleRetry s item u resp now).1.history.countP fun g => g.id == item.id) = 1

/-- Environment where the first render succeeds and all later renders fail
(with a fix suggestion "q"). -/
def envMixed : Nat → SceneEnv := fun i =>
  if i = 0 then { renderResponse := okResp } else { fixResponse := some "q" }

/-- A failed record carrying no suggestion at all. -/
def exItem9 : GeneratedImage :=
  { id := "d_0"
    batchId := some "d"
    originalInput := "s"
    refinedPrompt := "p"
    imageUrl := ""
    timestamp := 0
    aspectRatio := "1:1"
    status := Status.failed }

/-- State in which a retry for id `c_0` is already in flight. -/
def exBusy : AppState :=
  { currentBatch := [exItem6], history := [], retryingIds := ["c_0"] }

/-- A one-scene analysis result used in concrete runs. -/
def wScene : SceneBlueprint :=
  { scene_number := 1, korean_summary := "요약", english_prompt := "p" }

/-- Replaying appended traces composes the tracked batch value. -/
theorem finalBatchAux_append (l₁ l₂ : List AppEvent)
    (acc : Option (List GeneratedImage)) :
    finalBatchAux (l₁ ++ l₂) acc = finalBatchAux l₂ (finalBatchAux l₁ acc) := by
  induction l₁ generalizing acc with
  | nil => rfl
  | cons e rest ih => cases e <;> simp [finalBatchAux, ih]

/-- The renderer never returns a successful empty payload: the source
throws when no inline image is present, so an `ok` value is a non-empty
data URI. -/
theorem generateImage_ok_ne_empty (p r : String) (resp : Option (List ResponsePart))
    (url : String) (h : generateImage p r resp = Except.ok url) : url ≠ "" := by
  cases resp with
  | none => simp [generateImage] at h
  | some parts =>
    by_cases he : partsToImageUrl parts = ""
    · simp [generateImage, he] at h
    · simp [generateImage, he] at h
      exact h ▸ he

/-- Both loop branches give the scene-`i` record the id `batchId_i`. -/
theorem batchRecord_id (input batchId ratio : String) (env : Nat → SceneEnv)
    (nowAt : Nat → Nat) (i : Nat) (scene : SceneBlueprint) :
    (batchRecord input batchId ratio env nowAt i scene).id = sceneId batchId i := by
  cases h : generateImage scene.english_prompt ratio (env i).renderResponse <;>
    simp [batchRecord, h]

/-- A scene record is a success record exactly when the render call
returned ok. -/
theorem batchRecord_status_ok (input batchId ratio : String) (env : Nat → SceneEnv)
    (nowAt : Nat → Nat) (i : Nat) (scene : SceneBlueprint) (url : String)
    (h : generateImage scene.english_prompt ratio (env i).renderResponse
      = Except.ok url) :
    (batchRecord input batchId ratio env nowAt i scene).status = Status.success := by
  simp [batchRecord, h]

/-- A scene record is a failed record exactly when the render call threw. -/
theorem batchRecord_status_error (input batchId ratio : String) (env : Nat → SceneEnv)
    (nowAt : Nat → Nat) (i : Nat) (scene : SceneBlueprint) (e : String)
    (h : generateImage scene.english_prompt ratio (env i).renderResponse
      = Except.error e) :
    (batchRecord input batchId ratio env nowAt i scene).status = Status.failed := by
  simp [batchRecord, h]

/-- In a per-scene record, the payload is non-empty iff the status is
success: a success record carries the renderer's (never empty) data URI,
and a failed record carries `imageUrl = ""`. -/
theorem batchRecord_success_iff (input batchId ratio : String) (env : Nat → SceneEnv)
    (nowAt : Nat → Nat) (i : Nat) (scene : SceneBlueprint) :
    (batchRecord input batchId ratio env nowAt i scene).status = Status.success ↔
      (batchRecord input batchId ratio env nowAt i scene).imageUrl ≠ "" := by
  cases h : generateImage scene.english_prompt ratio (env i).renderResponse with
  | ok url =>
    simp [batchRecord, h]
    exact generateImage_ok_ne_empty _ _ _ _ h
  | error e => simp [batchRecord, h]

/-- When a per-scene record carries a suggestion it differs from the
refined prompt: the source filters the fix through
`suggestedPrompt !== scene.english_prompt`. -/
theorem batchRecord_suggested_ne (input batchId ratio : String) (env : Nat → SceneEnv)
    (nowAt : Nat → Nat) (i : Nat) (scene : SceneBlueprint) (sp : String)
    (hs : (batchRecord input batchId ratio env nowAt i scene).suggestedPrompt
      = some sp) :
    sp ≠ (batchRecord input batchId ratio env nowAt i scene).refinedPrompt := by
  cases h : generateImage scene.english_prompt ratio (env i).renderResponse with
  | ok url => simp [batchRecord, h] at hs
  | error e =>
    simp only [batchRecord, h] at hs ⊢
    split at hs
    · next hc =>
      cases hs
      exact hc.2
    · cases hs

/-- The loop issues exactly one render call per scene, with the scenes'
prompts in list order, whatever the outcomes are. -/
theorem generateLoop_renderCalls (input batchId ratio : String) (env : Nat → SceneEnv)
    (nowAt : Nat → Nat) (total : Nat) :
    ∀ (scenes : List SceneBlueprint) (i : Nat) (temp : List GeneratedImage),
      (generateLoop input batchId ratio env nowAt total scenes i temp).filterMap
          renderCallPrompt
        = scenes.map SceneBlueprint.english_prompt := by
  intro scenes
  induction scenes with
  | nil => intro i temp; rfl
  | cons scene rest ih =>
    intro i temp
    cases h : generateImage scene.english_prompt ratio (env i).renderResponse <;>
      by_cases hi : 0 < i <;>
        simp [generateLoop, h, hi, List.filterMap_append, renderCallPrompt, ih]

/-- Replaying the loop over any starting batch value: with no scene the
value is untouched, otherwise it ends as `temp` extended by the per-scene
records. -/
theorem generateLoop_finalBatchAux (input batchId ratio : String) (env : Nat → SceneEnv)
    (nowAt : Nat → Nat) (total : Nat) :
    ∀ (scenes : List SceneBlueprint) (i : Nat) (temp : List GeneratedImage)
      (acc : Option (List GeneratedImage)),
      finalBatchAux (generateLoop input batchId ratio env nowAt total scenes i temp) acc
        = match scenes with
          | [] => acc
          | _ :: _ =>
            some (temp ++ batchRecords input batchId ratio env nowAt scenes i) := by
  intro scenes
  induction scenes with
  | nil => intro i temp acc; rfl
  | cons scene rest ih =>
    intro i temp acc
    have hstep :
        finalBatchAux
            (generateLoop input batchId ratio env nowAt total (scene :: rest) i temp) acc
          = finalBatchAux
              (generateLoop input batchId ratio env nowAt total rest (i + 1)
                (temp ++ [batchRecord input batchId ratio env nowAt i scene]))
              (some (temp ++ [batchRecord input batchId ratio env nowAt i scene])) := by
      cases h : generateImage scene.english_prompt ratio (env i).renderResponse <;>
        by_cases hi : 0 < i <;>
          simp [generateLoop, h, hi, finalBatchAux_append, finalBatchAux]
    rw [hstep, ih]
    cases rest <;> simp [batchRecords]

/-- History pushes of the loop are exactly the success records among the
per-scene records, in order. -/
theorem generateLoop_pushes (input batchId ratio : String) (env : Nat → SceneEnv)
    (nowAt : Nat → Nat) (total : Nat) :
    ∀ (scenes : List SceneBlueprint) (i : Nat) (temp : List GeneratedImage),
      (generateLoop input batchId ratio env nowAt total scenes i temp).filterMap
          pushHistoryPayload
        = (batchRecords input batchId ratio env nowAt scenes i).filter
            (fun g => g.status == Status.success) := by
  intro scenes
  induction scenes with
  | nil => intro i temp; rfl
  | cons scene rest ih =>
    intro i temp
    cases h : generateImage scene.english_prompt ratio (env i).renderResponse with
    | ok url =>
      have hst := batchRecord_status_ok input batchId ratio env nowAt i scene url h
      by_cases hi : 0 < i <;>
        simp [generateLoop, h, hi, List.filterMap_append, pushHistoryPayload, ih,
          batchRecords, List.filter_cons, hst]
    | error e =>
      have hst := batchRecord_status_error input batchId ratio env nowAt i scene e h
      by_cases hi : 0 < i <;>
        simp [generateLoop, h, hi, List.filterMap_append, pushHistoryPayload, ih,
          batchRecords, List.filter_cons, hst]

/-- Every property of all per-scene records transfers to every member of
every batch value the loop publishes (given it already holds on the
starting `temp`). -/
theorem generateLoop_setBatch_mem (input batchId ratio : String) (env : Nat → SceneEnv)
    (nowAt : Nat → Nat) (total : Nat) (P : GeneratedImage → Prop)
    (hP : ∀ i scene, P (batchRecord input batchId ratio env nowAt i scene)) :
    ∀ (scenes : List SceneBlueprint) (i : Nat) (temp : List GeneratedImage),
      (∀ g ∈ temp, P g) →
      ∀ b, AppEvent.setBatch b ∈ generateLoop input batchId ratio env nowAt total scenes i temp →
      ∀ g ∈ b, P g := by
  intro scenes
  induction scenes with
  | nil =>
    intro i temp htemp b hb
    simp [generateLoop] at hb
  | cons scene rest ih =>
    intro i temp htemp b hb g hg
    have htemp' : ∀ g ∈ temp ++ [batchRecord input batchId ratio env nowAt i scene], P g := by
      intro g' hg'
      rcases List.mem_append.mp hg' with h' | h'
      · exact htemp g' h'
      · rw [List.mem_singleton.mp h']
        exact hP i scene
    cases h : generateImage scene.english_prompt ratio (env i).renderResponse <;>
      by_cases hi : 0 < i <;>
        simp [generateLoop, h, hi] at hb <;>
        rcases hb with hb | hb
    all_goals
      first
        | exact htemp' g (hb ▸ hg)
        | exact htemp' g (hb.symm ▸ hg)
        | exact ih (i + 1) _ htemp' b hb g hg

/-- Every batch value the loop publishes is non-empty (each `setBatch`
inside the loop appends the fresh record to the accumulated batch). -/
theorem generateLoop_setBatch_ne_nil (input batchId ratio : String) (env : Nat → SceneEnv)
    (nowAt : Nat → Nat) (total : Nat) :
    ∀ (scenes : List SceneBlueprint) (i : Nat) (temp : List GeneratedImage)
      (b : List GeneratedImage),
      AppEvent.setBatch b ∈ generateLoop input batchId ratio env nowAt total scenes i temp →
      b ≠ [] := by
  intro scenes
  induction scenes with
  | nil =>
    intro i temp b hb
    simp [generateLoop] at hb
  | cons scene rest ih =>
    intro i temp b hb
    cases h : generateImage scene.english_prompt ratio (env i).renderResponse <;>
      by_cases hi : 0 < i <;>
        simp [generateLoop, h, hi] at hb <;>
        rcases hb with hb | hb <;>
          first
            | (subst hb; simp)
            | exact ih (i + 1) _ b hb

/-- The loop always ends with the terminal success progress event. -/
theorem generateLoop_getLast (input batchId ratio : String) (env : Nat → SceneEnv)
    (nowAt : Nat → Nat) (total : Nat) :
    ∀ (scenes : List SceneBlueprint) (i : Nat) (temp : List GeneratedImage),
      (generateLoop input batchId ratio env nowAt total scenes i temp).getLast?
        = some (AppEvent.setLoading { status := LoadingStatus.success }) := by
  intro scenes
  induction scenes with
  | nil => intro i temp; rfl
  | cons scene rest ih =>
    intro i temp
    have hne : generateLoop input batchId ratio env nowAt total rest (i + 1)
        (temp ++ [batchRecord input batchId ratio env nowAt i scene]) ≠ [] := by
      cases rest with
      | nil => simp [generateLoop]
      | cons c cs => simp [generateLoop, List.append_eq_nil]
    simp only [generateLoop]
    rw [List.getLast?_append_of_ne_nil _ hne]
    exact ih (i + 1) _

/-- The per-scene records carry the ids `batchId_i, batchId_(i+1), ...` in
list order. -/
theorem batchRecords_map_id (input batchId ratio : String) (env : Nat → SceneEnv)
    (nowAt : Nat → Nat) :
    ∀ (scenes : List SceneBlueprint) (i : Nat),
      (batchRecords input batchId ratio env nowAt scenes i).map GeneratedImage.id
        = (List.range scenes.length).map (fun j => sceneId batchId (i + j)) := by
  intro scenes
  induction scenes with
  | nil => intro i; rfl
  | cons scene rest ih =>
    intro i
    simp only [batchRecords, List.map_cons, batchRecord_id, List.length_cons,
      List.range_succ_eq_map, List.map_map, ih]
    congr 1
    apply List.map_congr_left
    intro a _
    simp only [Function.comp_apply]
    congr 1
    omega

/-- One per-scene record per scene. -/
theorem batchRecords_length (input batchId ratio : String) (env : Nat → SceneEnv)
    (nowAt : Nat → Nat) :
    ∀ (scenes : List SceneBlueprint) (i : Nat),
      (batchRecords input batchId ratio env nowAt scenes i).length = scenes.length := by
  intro scenes
  induction scenes with
  | nil => intro i; rfl
  | cons scene rest ih => intro i; simp [batchRecords, ih]

/-- On a non-blank input, `handleGenerate` is its five prefix events
followed by the loop trace. -/
theorem handleGenerate_eq (input batchId ratio : String) (aresp : AnalysisResponse)
    (env : Nat → SceneEnv) (nowAt : Nat → Nat) (h : jsTrim input ≠ "") :
    handleGenerate input batchId ratio aresp env nowAt
      = [AppEvent.setLoading
            { status := LoadingStatus.analyzing
              message := some "이야기를 분석하고 장면을 나누고 있습니다..." },
         AppEvent.setErrorMsg none,
         AppEvent.analyzeCall input,
         AppEvent.setLoading
            { status := LoadingStatus.generating
              current := some 0
              total := some (analyzeScript input aresp).length
              message := some ("총 " ++ toString (analyzeScript input aresp).length
                ++ "개의 장면을 생성할 준비가 되었습니다.") },
         AppEvent.setBatch []]
        ++ generateLoop input batchId ratio env nowAt
            (analyzeScript input aresp).length (analyzeScript input aresp) 0 [] := by
  simp [handleGenerate, h]

/-- On a non-blank input the live batch ends as the full per-scene record
list (for zero analyzed scenes it ends as the cleared empty batch, which is
the empty record list). -/
theorem handleGenerate_finalBatch (input batchId ratio : String)
    (aresp : AnalysisResponse) (env : Nat → SceneEnv) (nowAt : Nat → Nat)
    (h : jsTrim input ≠ "") :
    finalBatch (handleGenerate input batchId ratio aresp env nowAt)
      = some (batchRecords input batchId ratio env nowAt (analyzeScript input aresp) 0) := by
  unfold finalBatch
  rw [handleGenerate_eq input batchId ratio aresp env nowAt h, finalBatchAux_append,
    generateLoop_finalBatchAux]
  cases analyzeScript input aresp <;> simp [batchRecords, finalBatchAux]

/-- C1: for every script input that is non-empty after trimming,
`handleGenerate` attempts every scene of the analyzed list exactly once, in
list order, whatever each render's outcome is; the final live batch holds
exactly one record per scene with ids `batchId_0 .. batchId_(N-1)` in that
order (i.e. scene indices 1..N in order); and the trace ends with the
terminal success progress phase.  A single scene's failure never prevents
the remaining scenes from being attempted, since the statement holds for
every environment `env`. -/
theorem generate_attempts_all_scenes_in_order (input batchId ratio : String)
    (aresp : AnalysisResponse) (env : Nat → SceneEnv) (nowAt : Nat → Nat)
    (h : jsTrim input ≠ "") :
    GenerateBatchSpec input batchId ratio aresp env nowAt := by
  unfold GenerateBatchSpec
  refine ⟨?_, handleGenerate_finalBatch input batchId ratio aresp env nowAt h, ?_, ?_⟩
  · rw [handleGenerate_eq input batchId ratio aresp env nowAt h]
    simp [List.filterMap_append, renderCallPrompt, generateLoop_renderCalls]
  · rw [batchRecords_map_id input batchId ratio env nowAt (analyzeScript input aresp) 0]
    apply List.map_congr_left
    intro a _
    rw [Nat.zero_add]
  · rw [handleGenerate_eq input batchId ratio aresp env nowAt h]
    have hlast := generateLoop_getLast input batchId ratio env nowAt
      (analyzeScript input aresp).length (analyzeScript input aresp) 0 []
    have hne : generateLoop input batchId ratio env nowAt
        (analyzeScript input aresp).length (analyzeScript input aresp) 0 [] ≠ [] := by
      intro hnil
      rw [hnil] at hlast
      simp at hlast
    rw [List.getLast?_append_of_ne_nil _ hne]
    exact hlast

/-- Witness for C1: a concrete two-scene run (both renders succeed). -/
theorem generate_attempts_all_scenes_in_order_witness :
    jsTrim "옛날 옛적" ≠ "" ∧
    GenerateBatchSpec "옛날 옛적" "17" "16:9"
      (AnalysisResponse.parsedArray
        [{ scene_number := 1, korean_summary := "첫", english_prompt := "first scene" },
         { scene_number := 2, korean_summary := "둘", english_prompt := "second scene" }])
      envOk now0 :=
  ⟨by decide,
   generate_attempts_all_scenes_in_order "옛날 옛적" "17" "16:9"
      (AnalysisResponse.parsedArray
        [{ scene_number := 1, korean_summary := "첫", english_prompt := "first scene" },
         { scene_number := 2, korean_summary := "둘", english_prompt := "second scene" }])
      envOk now0 (by decide)⟩

/-- C4: every record inserted into the persisted history has status
success.  During a batch, the history pushes are exactly the successful
per-scene records (K pushes for K render successes), while the live view
ends with all N records; and a retry transition either leaves history
unchanged or prepends one success record. -/
theorem history_gains_only_success (input batchId ratio : String)
    (aresp : AnalysisResponse) (env : Nat → SceneEnv) (nowAt : Nat → Nat)
    (h : jsTrim input ≠ "") :
    HistorySuccessOnlySpec input batchId ratio aresp env nowAt := by
  have hpush : (handleGenerate input batchId ratio aresp env nowAt).filterMap
      pushHistoryPayload
      = (batchRecords input batchId ratio env nowAt (analyzeScript input aresp) 0).filter
          (fun g => g.status == Status.success) := by
    rw [handleGenerate_eq input batchId ratio aresp env nowAt h]
    simp [List.filterMap_append, pushHistoryPayload, generateLoop_pushes]
  unfold HistorySuccessOnlySpec
  refine ⟨?_, hpush,
    batchRecords_length input batchId ratio env nowAt (analyzeScript input aresp) 0,
    handleGenerate_finalBatch input batchId ratio aresp env nowAt h, ?_⟩
  · intro g hg
    have hmem : g ∈ (handleGenerate input batchId ratio aresp env nowAt).filterMap
        pushHistoryPayload :=
      List.mem_filterMap.mpr ⟨AppEvent.pushHistory g, hg, rfl⟩
    rw [hpush] at hmem
    have := (List.mem_filter.mp hmem).2
    simpa using this
  · intro s item u resp now
    by_cases hc : item.id ∈ s.retryingIds
    · left
      simp [handleRetry, hc]
    · cases hg : generateImage (retryPrompt item u) item.aspectRatio resp with
      | ok url =>
        right
        refine ⟨retrySuccessItem item url (retryPrompt item u) now, ?_, rfl⟩
        simp [handleRetry, hc, hg]
      | error e =>
        left
        simp [handleRetry, hc, hg]

/-- Witness for C4: a concrete two-scene run in which scene 1 succeeds and
scene 2 fails. -/
theorem history_gains_only_success_witness :
    jsTrim "모험 이야기" ≠ "" ∧
    HistorySuccessOnlySpec "모험 이야기" "18" "9:16"
      (AnalysisResponse.parsedArray
        [{ scene_number := 1, korean_summary := "첫", english_prompt := "first scene" },
         { scene_number := 2, korean_summary := "둘", english_prompt := "second scene" }])
      envMixed now0 :=
  ⟨by decide,
   history_gains_only_success "모험 이야기" "18" "9:16"
      (AnalysisResponse.parsedArray
        [{ scene_number := 1, korean_summary := "첫", english_prompt := "first scene" },
         { scene_number := 2, korean_summary := "둘", english_prompt := "second scene" }])
      envMixed now0 (by decide)⟩

/-- C5: in every live batch `handleGenerate` publishes, a record's image
payload is non-empty exactly when its status is success (the renderer
throws instead of returning an empty payload, and failed records carry
`imageUrl = ""`); and every record a retry adds to history is a success
record with a non-empty payload. -/
theorem imageUrl_nonempty_iff_success (input batchId ratio : String)
    (aresp : AnalysisResponse) (env : Nat → SceneEnv) (nowAt : Nat → Nat)
    (h : jsTrim input ≠ "") :
    ImageIffSuccessSpec input batchId ratio aresp env nowAt := by
  unfold ImageIffSuccessSpec
  constructor
  · intro b hb g hg
    rw [handleGenerate_eq input batchId ratio aresp env nowAt h] at hb
    rcases List.mem_append.mp hb with hb | hb
    · simp at hb
      subst hb
      simp at hg
    · exact generateLoop_setBatch_mem input batchId ratio env nowAt
        (analyzeScript input aresp).length
        (fun g => g.status = Status.success ↔ g.imageUrl ≠ "")
        (fun i scene => batchRecord_success_iff input batchId ratio env nowAt i scene)
        (analyzeScript input aresp) 0 [] (by simp) b hb g hg
  · intro s item u resp now si hsi
    by_cases hc : item.id ∈ s.retryingIds
    · exfalso
      have heq : (handleRetry s item u resp now).1.history = s.history := by
        simp [handleRetry, hc]
      rw [heq] at hsi
      have := congrArg List.length hsi
      simp at this
    · cases hg : generateImage (retryPrompt item u) item.aspectRatio resp with
      | ok url =>
        have heq : (handleRetry s item u resp now).1.history
            = retrySuccessItem item url (retryPrompt item u) now :: s.history := by
          simp [handleRetry, hc, hg]
        rw [heq] at hsi
        have hsi1 : retrySuccessItem item url (retryPrompt item u) now = si :=
          (List.cons.injEq _ _ _ _).mp hsi |>.1
        rw [← hsi1]
        exact ⟨rfl, generateImage_ok_ne_empty _ _ _ _ hg⟩
      | error e =>
        exfalso
        have heq : (handleRetry s item u resp now).1.history = s.history := by
          simp [handleRetry, hc, hg]
        rw [heq] at hsi
        have := congrArg List.length hsi
        simp at this

/-- Witness for C5: a concrete run with one success and one failure. -/
theorem imageUrl_nonempty_iff_success_witness :
    jsTrim "강 이야기" ≠ "" ∧
    ImageIffSuccessSpec "강 이야기" "19" "1:1"
      (AnalysisResponse.parsedArray
        [{ scene_number := 1, korean_summary := "첫", english_prompt := "first scene" },
         { scene_number := 2, korean_summary := "둘", english_prompt := "second scene" }])
      envMixed now0 :=
  ⟨by decide,
   imageUrl_nonempty_iff_success "강 이야기" "19" "1:1"
      (AnalysisResponse.parsedArray
        [{ scene_number := 1, korean_summary := "첫", english_prompt := "first scene" },
         { scene_number := 2, korean_summary := "둘", english_prompt := "second scene" }])
      envMixed now0 (by decide)⟩

/-- C10: on a non-blank input the trace splits as `pre ++ setBatch [] ::
post`, where `pre` contains the analysis call but no batch mutation and no
render call, and every later batch value is non-empty — so the previous
batch stays visible throughout analysis, and the view is cleared exactly
once, after analysis returns and before the first render attempt. -/
theorem generate_clears_batch_once_after_analysis (input batchId ratio : String)
    (aresp : AnalysisResponse) (env : Nat → SceneEnv) (nowAt : Nat → Nat)
    (h : jsTrim input ≠ "") :
    ClearOnceSpec input batchId ratio aresp env nowAt := by
  unfold ClearOnceSpec
  refine ⟨[AppEvent.setLoading
              { status := LoadingStatus.analyzing
                message := some "이야기를 분석하고 장면을 나누고 있습니다..." },
           AppEvent.setErrorMsg none,
           AppEvent.analyzeCall input,
           AppEvent.setLoading
              { status := LoadingStatus.generating
                current := some 0
                total := some (analyzeScript input aresp).length
                message := some ("총 " ++ toString (analyzeScript input aresp).length
                  ++ "개의 장면을 생성할 준비가 되었습니다.") }],
          generateLoop input batchId ratio env nowAt
            (analyzeScript input aresp).length (analyzeScript input aresp) 0 [],
          ?_, ?_, ?_, ?_⟩
  · rw [handleGenerate_eq input batchId ratio aresp env nowAt h]
    rfl
  · simp
  · intro e he
    simp only [List.mem_cons, List.mem_singleton, List.not_mem_nil] at he
    rcases he with rfl | rfl | rfl | rfl | he
    · exact ⟨rfl, rfl⟩
    · exact ⟨rfl, rfl⟩
    · exact ⟨rfl, rfl⟩
    · exact ⟨rfl, rfl⟩
    · exact absurd he (by simp)
  · intro b hb
    exact generateLoop_setBatch_ne_nil input batchId ratio env nowAt
      (analyzeScript input aresp).length (analyzeScript input aresp) 0 [] b hb

/-- Witness for C10 at a concrete one-scene run. -/
theorem generate_clears_batch_once_after_analysis_witness :
    jsTrim "호랑이 이야기" ≠ "" ∧
    ClearOnceSpec "호랑이 이야기" "20" "16:9"
      (AnalysisResponse.parsedArray [wScene]) envOk now0 :=
  ⟨by decide,
   generate_clears_batch_once_after_analysis "호랑이 이야기" "20" "16:9"
      (AnalysisResponse.parsedArray [wScene]) envOk now0 (by decide)⟩

/-- C3 counterexample: `handleRetry` prepends the success item to history
unconditionally (`src/App.tsx` line 174) — there is no presence check.
Starting from a state whose history already holds a record with id `b_0`,
a successful retry of a record with that id leaves history with two records
for the same id, refuting "a retry never creates a second record for the
same id" as a property of the retry operation over all states. -/
theorem retry_duplicate_insert_counterexample :
    exOld3 ∈ exState3.history ∧ exOld3.id = exItem3.id ∧
    ((handleRetry exState3 exItem3 false okResp 7).1.history.countP
        fun g => g.id == "b_0") = 2 := by
  decide

/-- C3 (amended): on a successful retry the record is updated in place
under the same id in the live batch view (status success, payload set,
`refinedPrompt` set to the prompt actually used, timestamp refreshed), and
the success item is prepended to history unconditionally; when no history
record already carries the id — which is the case for a previously-failed
item, since failed records are never persisted — history afterwards holds
exactly one record with that id. -/
theorem retry_updates_in_place_no_duplicate (s : AppState) (item : GeneratedImage)
    (u : Bool) (resp : Option (List ResponsePart)) (now : Nat) (url : String)
    (hok : generateImage (retryPrompt item u) item.aspectRatio resp = Except.ok url)
    (hnf : item.id ∉ s.retryingIds)
    (habs : ∀ g ∈ s.history, g.id ≠ item.id) :
    RetryInPlaceSpec s item u resp now url := by
  have hretry : handleRetry s item u resp now
      = ({ currentBatch := s.currentBatch.map fun g =>
              if g.id = item.id then retrySuccessItem item url (retryPrompt item u) now
              else g
           history := retrySuccessItem item url (retryPrompt item u) now :: s.history
           retryingIds := s.retryingIds
           errorMsg := s.errorMsg }, true) := by
    simp [handleRetry, hnf, hok]
  unfold RetryInPlaceSpec
  rw [hretry]
  have h0 : s.history.countP (fun g => g.id == item.id) = 0 :=
    List.countP_eq_zero.mpr (fun g hg => by simpa using habs g hg)
  refine ⟨rfl, rfl, rfl, rfl, rfl, rfl, rfl, ?_⟩
  simp [List.countP_cons, h0, retrySuccessItem]

/-- Witness for the amended C3: retrying the failed record `exItem6`
(history empty) with the original prompt. -/
theorem retry_updates_in_place_no_duplicate_witness :
    generateImage (retryPrompt exItem6 false) exItem6.aspectRatio okResp
        = Except.ok "data:image/png;base64,d" ∧
    exItem6.id ∉ exState6.retryingIds ∧
    RetryInPlaceSpec exState6 exItem6 false okResp 9 "data:image/png;base64,d" :=
  ⟨by rfl, by decide,
   retry_updates_in_place_no_duplicate exState6 exItem6 false okResp 9
      "data:image/png;base64,d" (by rfl) (by decide) (by decide)⟩

/-- C8: a retry requested while one is already in flight for the same id is
a no-op — the state is unchanged and no render call is issued; otherwise a
render call is issued and, whether it succeeds or fails, the in-flight flag
is cleared again on completion (the `finally` block), leaving the
in-flight set exactly as before. -/
theorem retry_inflight_guard (s : AppState) (item : GeneratedImage) (u : Bool)
    (resp : Option (List ResponsePart)) (now : Nat) :
    (item.id ∈ s.retryingIds →
      handleRetry s item u resp now = (s, false)) ∧
    (item.id ∉ s.retryingIds →
      (handleRetry s item u resp now).2 = true ∧
      (handleRetry s item u resp now).1.retryingIds = s.retryingIds) := by
  constructor
  · intro hc
    simp [handleRetry, hc]
  · intro hc
    cases hg : generateImage (retryPrompt item u) item.aspectRatio resp <;>
      simp [handleRetry, hc, hg]

/-- Witness for C8: the in-flight state `exBusy` makes the retry a no-op,
and the idle state `exState6` issues the render and clears the flag. -/
theorem retry_inflight_guard_witness :
    (exItem6.id ∈ exBusy.retryingIds ∧
      handleRetry exBusy exItem6 false okResp 3 = (exBusy, false)) ∧
    (exItem6.id ∉ exState6.retryingIds ∧
      (handleRetry exState6 exItem6 false okResp 3).2 = true ∧
      (handleRetry exState6 exItem6 false okResp 3).1.retryingIds
        = exState6.retryingIds) :=
  ⟨⟨by decide, (retry_inflight_guard exBusy exItem6 false okResp 3).1 (by decide)⟩,
   ⟨by decide, (retry_inflight_guard exState6 exItem6 false okResp 3).2 (by decide)⟩⟩

/-- C9: when a record carries no suggestion, `retry(id, true)` selects the
record's `refinedPrompt` — exactly as `retry(id, false)` does — and the two
calls are extensionally equal as state transitions, for every renderer
behaviour. -/
theorem retry_no_suggestion_same_as_original (s : AppState) (item : GeneratedImage)
    (resp : Option (List ResponsePart)) (now : Nat)
    (h : item.suggestedPrompt = none) :
    retryPrompt item true = item.refinedPrompt ∧
    handleRetry s item true resp now = handleRetry s item false resp now := by
  have hp : retryPrompt item true = item.refinedPrompt := by
    simp [retryPrompt, h]
  have hp' : retryPrompt item false = item.refinedPrompt := rfl
  exact ⟨hp, by simp [handleRetry, hp, hp']⟩

/-- Witness for C9 at the suggestion-free record `exItem9`. -/
theorem retry_no_suggestion_same_as_original_witness :
    exItem9.suggestedPrompt = none ∧
    (retryPrompt exItem9 true = exItem9.refinedPrompt ∧
      handleRetry exState6 exItem9 true okResp 4
        = handleRetry exState6 exItem9 false okResp 4) :=
  ⟨rfl, retry_no_suggestion_same_as_original exState6 exItem9 okResp 4 rfl⟩

/-- C2 counterexample: for a batch of 11 scenes (ids `b_0 .. b_10`),
`handleSelectHistoryItem` sorts by the `localeCompare` string order, which
puts `b_10` before `b_2`; the reconstructed view is NOT in ascending
scene-index order. -/
theorem selectBatch_lex_order_counterexample :
    (handleSelectHistoryItem exHistory (exRec 0)).map GeneratedImage.id
        = ["b_0", "b_1", "b_10", "b_2", "b_3", "b_4", "b_5", "b_6", "b_7", "b_8", "b_9"] ∧
    (handleSelectHistoryItem exHistory (exRec 0)).map GeneratedImage.id
        ≠ (List.range 11).map (sceneId "b") := by
  decide

/-- C2 (amended): for an item with a (non-empty) `batchId` whose batch has
more than one stored record, `handleSelectHistoryItem` reconstructs the
batch view as the insertion-order sibling list sorted by the lexicographic
`localeCompare` order on ids — a stable sort of the siblings, sorted with
respect to `idLe`.  This coincides with ascending scene-index order only
while the id suffixes compare numerically (e.g. batches of at most ten
scenes); with `N ≥ 11`, ids like `b_10` sort before `b_2`. -/
theorem selectBatch_sorted_lex_by_id (history : List GeneratedImage)
    (item : GeneratedImage) (b : String) (hb : item.batchId = some b)
    (hb0 : b ≠ "")
    (hlen : 1 < ((history.filter fun h => h.batchId == some b).reverse).length) :
    handleSelectHistoryItem history item
        = List.insertionSort idLe
            ((history.filter fun h => h.batchId == some b).reverse) ∧
    List.Sorted idLe (handleSelectHistoryItem history item) ∧
    List.Perm (handleSelectHistoryItem history item)
      ((history.filter fun h => h.batchId == some b).reverse) := by
  have hlen' : 1 < (history.filter fun h => h.batchId == some b).length := by
    simpa using hlen
  have heq : handleSelectHistoryItem history item
      = List.insertionSort idLe
          ((history.filter fun h => h.batchId == some b).reverse) := by
    simp [handleSelectHistoryItem, hb, hb0, hlen']
  refine ⟨heq, ?_, ?_⟩
  · rw [heq]
    exact List.sorted_insertionSort idLe _
  · rw [heq]
    exact List.perm_insertionSort idLe _

/-- Witness for the amended C2 on the eleven-record batch `exHistory`. -/
theorem selectBatch_sorted_lex_by_id_witness :
    (exRec 0).batchId = some "b" ∧
    (handleSelectHistoryItem exHistory (exRec 0)
        = List.insertionSort idLe
            ((exHistory.filter fun h => h.batchId == some "b").reverse) ∧
      List.Sorted idLe (handleSelectHistoryItem exHistory (exRec 0)) ∧
      List.Perm (handleSelectHistoryItem exHistory (exRec 0))
        ((exHistory.filter fun h => h.batchId == some "b").reverse)) :=
  ⟨rfl, selectBatch_sorted_lex_by_id exHistory (exRec 0) "b" rfl (by decide) (by decide)⟩

/-- C6 counterexample: a successful retry that used the suggested prompt
keeps the old `suggestedPrompt` while setting `refinedPrompt` to it (the
`successItem` spread copies `suggestedPrompt` from `item`), so the updated
record has `suggestedPrompt = some refinedPrompt` — the invariant is NOT
preserved by that operation. -/
theorem retry_suggestion_equals_refined_counterexample :
    (handleRetry exState6 exItem6 true okResp 5).1.history.head?
        = some (retrySuccessItem exItem6 "data:image/png;base64,d" "b" 5) ∧
    (retrySuccessItem exItem6 "data:image/png;base64,d" "b" 5).suggestedPrompt
        = some (retrySuccessItem exItem6 "data:image/png;base64,d" "b" 5).refinedPrompt := by
  decide

/-- C6 (amended): on every record `handleGenerate` publishes in a batch
view, a present `suggestedPrompt` differs from `refinedPrompt` (success
records carry no suggestion; failed records only carry a suggestion that
passed the `!== english_prompt` check).  The invariant is not preserved by
a successful retry that used the suggestion (see the counterexample). -/
theorem generate_suggestion_differs_from_refined (input batchId ratio : String)
    (aresp : AnalysisResponse) (env : Nat → SceneEnv) (nowAt : Nat → Nat)
    (b : List GeneratedImage) (g : GeneratedImage) (sp : String)
    (hb : AppEvent.setBatch b ∈ handleGenerate input batchId ratio aresp env nowAt)
    (hg : g ∈ b) (hs : g.suggestedPrompt = some sp) :
    sp ≠ g.refinedPrompt := by
  by_cases htrim : jsTrim input = ""
  · simp [handleGenerate, htrim] at hb
  · rw [handleGenerate_eq input batchId ratio aresp env nowAt htrim] at hb
    rcases List.mem_append.mp hb with hb | hb
    · simp at hb
      subst hb
      simp at hg
    · exact generateLoop_setBatch_mem input batchId ratio env nowAt
        (analyzeScript input aresp).length
        (fun g => ∀ sp, g.suggestedPrompt = some sp → sp ≠ g.refinedPrompt)
        (fun i scene sp hsp =>
          batchRecord_suggested_ne input batchId ratio env nowAt i scene sp hsp)
        (analyzeScript input aresp) 0 [] (by simp) b hb g hg sp hs

/-- Witness for the amended C6: a failed scene whose fix suggestion "q"
differs from its prompt "p". -/
theorem generate_suggestion_differs_from_refined_witness :
    ("q" : String) ≠ (batchRecord "숲 이야기" "21" "16:9" envFail now0 0 wScene).refinedPrompt :=
  generate_suggestion_differs_from_refined "숲 이야기" "21" "16:9"
    (AnalysisResponse.parsedArray [wScene]) envFail now0
    [batchRecord "숲 이야기" "21" "16:9" envFail now0 0 wScene]
    (batchRecord "숲 이야기" "21" "16:9" envFail now0 0 wScene) "q"
    (by decide) (by decide) (by decide)

/-- C7 counterexample: a provider answer that parses to the empty JSON
array is returned as is — `Array.isArray([])` holds, so `analyzeScript`
yields the empty list, not the one-element degenerate fallback, and the
generation loop receives a list of length 0. -/
theorem analyze_empty_array_counterexample :
    analyzeScript "바다 이야기" (AnalysisResponse.parsedArray []) = [] ∧
    analyzeScript "바다 이야기" (AnalysisResponse.parsedArray [])
        ≠ [fallbackScene "바다 이야기"] := by
  decide

/-- C7 (amended): when the analysis provider call throws, yields no text,
yields unparsable text, or parses to a non-object non-array value, the
error does not propagate: `analyzeScript` returns the one-element
degenerate list whose single scene has index 1, the "단일 장면" placeholder
summary and `imagePrompt = T`; a parsed single object is wrapped into a
one-element list; but a successfully parsed array — including the empty
array — is returned unchanged, so the loop is only guaranteed a non-empty
list for non-array outcomes. -/
theorem analyze_fallback_on_failure (T : String) :
    analyzeScript T AnalysisResponse.thrown = [fallbackScene T] ∧
    analyzeScript T AnalysisResponse.noText = [fallbackScene T] ∧
    analyzeScript T AnalysisResponse.unparsable = [fallbackScene T] ∧
    analyzeScript T AnalysisResponse.parsedOther = [fallbackScene T] ∧
    (∀ scene, analyzeScript T (AnalysisResponse.parsedObject scene) = [scene]) ∧
    (∀ scenes, analyzeScript T (AnalysisResponse.parsedArray scenes) = scenes) ∧
    (fallbackScene T).scene_number = 1 ∧
    (fallbackScene T).korean_summary = "단일 장면" ∧
    (fallbackScene T).english_prompt = T :=
  ⟨rfl, rfl, rfl, rfl, fun _ => rfl, fun _ => rfl, rfl, rfl, rfl⟩
